import Mathlib

/-!
Verification of the FovDark loader's license-enforcement core against the
repository's two Python sources (`loader-example.py` and
`loader_fovdark_corrigido_pyqt6.py`).  The Python functions are embedded
shallowly: machine-level effects (HTTP calls, environment variables, the
`uuid.getnode()` value) become explicit arguments, and exceptions become
explicit `Except`/sum values, so that every function below is a total,
executable Lean definition mirroring the source line by line.
-/

set_option maxRecDepth 40000

namespace FovDark

/-! ## SHA-256 (semantics of Python's `hashlib.sha256(...).hexdigest()`) -/

/-- 32-bit truncating addition. -/
def add32 (a b : Nat) : Nat := (a + b) % 2 ^ 32

/-- 32-bit right rotation of a word `w` by `k` places. -/
def rotWord (k w : Nat) : Nat := (w >>> k ||| w <<< (32 - k)) % 2 ^ 32

/-- SHA-256 upper-case sigma-0. -/
def sigA0 (w : Nat) : Nat := rotWord 2 w ^^^ (rotWord 13 w ^^^ rotWord 22 w)

/-- SHA-256 upper-case sigma-1. -/
def sigA1 (w : Nat) : Nat := rotWord 6 w ^^^ (rotWord 11 w ^^^ rotWord 25 w)

/-- SHA-256 lower-case sigma-0. -/
def sigB0 (w : Nat) : Nat := rotWord 7 w ^^^ (rotWord 18 w ^^^ w >>> 3)

/-- SHA-256 lower-case sigma-1. -/
def sigB1 (w : Nat) : Nat := rotWord 17 w ^^^ (rotWord 19 w ^^^ w >>> 10)

/-- SHA-256 choice function. -/
def chF (x y z : Nat) : Nat := (x &&& y) ^^^ ((x ^^^ 4294967295) &&& z)

/-- SHA-256 majority function. -/
def majF (x y z : Nat) : Nat := (x &&& y) ^^^ (x &&& z) ^^^ (y &&& z)

/-- The 64 SHA-256 round constants (FIPS 180-4, written in decimal). -/
def Kconsts : List Nat :=
  [1116352408, 1899447441, 3049323471, 3921009573, 961987163, 1508970993,
   2453635748, 2870763221, 3624381080, 310598401, 607225278, 1426881987,
   1925078388, 2162078206, 2614888103, 3248222580, 3835390401, 4022224774,
   264347078, 604807628, 770255983, 1249150122, 1555081692, 1996064986,
   2554220882, 2821834349, 2952996808, 3210313671, 3336571891, 3584528711,
   113926993, 338241895, 666307205, 773529912, 1294757372, 1396182291,
   1695183700, 1986661051, 2177026350, 2456956037, 2730485921, 2820302411,
   3259730800, 3345764771, 3516065817, 3600352804, 4094571909, 275423344,
   430227734, 506948616, 659060556, 883997877, 958139571, 1322822218,
   1537002063, 1747873779, 1955562222, 2024104815, 2227730452, 2361852424,
   2428436474, 2756734187, 3204031479, 3329325298]

/-- SHA-256 working state: eight 32-bit words. -/
structure Hash8 where
  a : Nat
  b : Nat
  c : Nat
  d : Nat
  e : Nat
  f : Nat
  g : Nat
  h : Nat
deriving DecidableEq

/-- SHA-256 initial hash value (FIPS 180-4, written in decimal). -/
def initH : Hash8 :=
  ⟨1779033703, 3144134277, 1013904242, 2773480762,
   1359893119, 2600822924, 528734635, 1541459225⟩

/-- One SHA-256 compression round, consuming a pair (round constant, schedule word). -/
def compressStep (st : Hash8) (kw : Nat × Nat) : Hash8 :=
  let t1 := (st.h + sigA1 st.e + chF st.e st.f st.g + kw.1 + kw.2) % 2 ^ 32
  let t2 := (sigA0 st.a + majF st.a st.b st.c) % 2 ^ 32
  ⟨(t1 + t2) % 2 ^ 32, st.a, st.b, st.c, (st.d + t1) % 2 ^ 32, st.e, st.f, st.g⟩

/-- Extend the 16 block words to the 64-entry message schedule (`fuel` = 48 steps). -/
def extendSchedule : Nat → List Nat → List Nat
  | 0, acc => acc
  | fuel + 1, acc =>
    let t := acc.length
    let w := (sigB1 (acc.getD (t - 2) 0) + acc.getD (t - 7) 0 +
              sigB0 (acc.getD (t - 15) 0) + acc.getD (t - 16) 0) % 2 ^ 32
    extendSchedule fuel (acc ++ [w])

/-- Compress one 512-bit block (given as 16 words) into the running hash. -/
def compressBlock (H : Hash8) (block : List Nat) : Hash8 :=
  let W := extendSchedule 48 block
  let st := (Kconsts.zip W).foldl compressStep H
  ⟨add32 H.a st.a, add32 H.b st.b, add32 H.c st.c, add32 H.d st.d,
   add32 H.e st.e, add32 H.f st.f, add32 H.g st.g, add32 H.h st.h⟩

/-- Group a byte list into big-endian 32-bit words. -/
def bytesToWords : List Nat → List Nat
  | b0 :: b1 :: b2 :: b3 :: rest =>
      (((b0 * 256 + b1) * 256 + b2) * 256 + b3) :: bytesToWords rest
  | _ => []

/-- Split a word list into 16-word blocks (`fuel` bounds the recursion). -/
def wordsToBlocks : Nat → List Nat → List (List Nat)
  | 0, _ => []
  | _, [] => []
  | fuel + 1, ws => ws.take 16 :: wordsToBlocks fuel (ws.drop 16)

/-- SHA-256 padding: append `0x80`, zero bytes to 56 mod 64, then the 64-bit bit length. -/
def padMessage (msg : List Nat) : List Nat :=
  msg ++ [0x80] ++ List.replicate ((119 - msg.length % 64) % 64) 0 ++
    (List.range 8).map (fun i => ((8 * msg.length) >>> (8 * (7 - i))) % 256)

/-- Full SHA-256 over a byte list, producing the eight final hash words. -/
def sha256Words (msg : List Nat) : Hash8 :=
  let padded := padMessage msg
  (wordsToBlocks (padded.length) (bytesToWords padded)).foldl compressBlock initH

/-- The SHA-256 digest as a single 256-bit natural number (big-endian word order). -/
def sha256Nat (msg : List Nat) : Nat :=
  let H := sha256Words msg
  [H.a, H.b, H.c, H.d, H.e, H.f, H.g, H.h].foldl (fun acc w => acc * 2 ^ 32 + w) 0

/-- Lowercase hexadecimal digit (expects `n < 16`), as Python's `%x`/`hexdigest` formats. -/
def hexCharLower (n : Nat) : Char :=
  if n < 10 then Char.ofNat (48 + n) else Char.ofNat (87 + n)

/-- Render a 256-bit number as 64 lowercase hex characters, most significant first. -/
def natToHex64 (D : Nat) : List Char :=
  (List.range 64).map (fun i => hexCharLower (D / 16 ^ (63 - i) % 16))

/-- Semantics of Python's `hashlib.sha256(bytes).hexdigest()`. -/
def sha256hex (msg : List Nat) : List Char := natToHex64 (sha256Nat msg)

/-- UTF-8 encoding of one code point, as Python's `str.encode()` produces per character. -/
def utf8Char (n : Nat) : List Nat :=
  if n < 0x80 then [n]
  else if n < 0x800 then [0xc0 ||| (n >>> 6), 0x80 ||| (n &&& 0x3f)]
  else if n < 0x10000 then
    [0xe0 ||| (n >>> 12), 0x80 ||| ((n >>> 6) &&& 0x3f), 0x80 ||| (n &&& 0x3f)]
  else
    [0xf0 ||| (n >>> 18), 0x80 ||| ((n >>> 12) &&& 0x3f),
     0x80 ||| ((n >>> 6) &&& 0x3f), 0x80 ||| (n &&& 0x3f)]

/-- Semantics of Python's `str.encode()` (UTF-8 bytes of a string). -/
def strBytes (s : String) : List Nat := (s.data.map (fun c => utf8Char c.toNat)).flatten

/-! ## Fingerprint generators

`gerar_hwid` (loader_fovdark_corrigido_pyqt6.py, lines 35–38) and
`FovDarkLicenseChecker.generate_hwid` (loader-example.py, lines 19–26).
The machine attributes read from the host — `uuid.getnode()`,
`os.getenv("COMPUTERNAME", "")`, `os.getenv("USERNAME", "")`,
`platform.node()`, `platform.processor()`, `platform.system()` — are the
explicit arguments of the embedded functions. -/

/-- `gerar_hwid`: `raw = str(uuid.getnode()) + COMPUTERNAME + USERNAME;`
`sha256(raw.encode()).hexdigest()`. -/
def gerar_hwid (node : Nat) (computerName userName : String) : String :=
  let raw := toString node ++ computerName ++ userName
  String.mk (sha256hex (strBytes raw))

/-- Python's `'{:02x}'.format(b)` for a byte value. -/
def format02x (b : Nat) : String :=
  String.mk [hexCharLower (b / 16 % 16), hexCharLower (b % 16)]

/-- The `mac_address` expression of `generate_hwid`: bytes extracted at shifts
`range(0, 2*6, 2)` (as written in the source), hex-formatted, reversed, `':'`-joined. -/
def macAddressOf (node : Nat) : String :=
  String.intercalate ":" (([0, 2, 4, 6, 8, 10].map
    (fun e => format02x ((node >>> e) &&& 0xff))).reverse)

/-- The `combined` string hashed by `generate_hwid`. -/
def combinedOf (platformNode processor system : String) (node : Nat) : String :=
  (platformNode ++ "-" ++ processor ++ "-" ++ system) ++ "-" ++ macAddressOf node

/-- `FovDarkLicenseChecker.generate_hwid`:
`sha256(combined.encode()).hexdigest()[:16].upper()`. -/
def generate_hwid (platformNode processor system : String) (node : Nat) : String :=
  String.mk (((sha256hex (strBytes (combinedOf platformNode processor system node))).take 16).map
    Char.toUpper)

/-! ## Heartbeat monitor (loader-example.py)

JSON bodies are embedded as structures with `Option` fields: a missing JSON
key is `none`, so Python's `d.get(k)` is `Option.getD`/pattern matching. -/

/-- The `timeRemaining` JSON object; every field may be absent. -/
structure TimeRemaining where
  days : Option Int
  hours : Option Int
  minutes : Option Int
  totalMinutes : Option Int
deriving DecidableEq

/-- The empty JSON object `{}`, the default for `heartbeat.get("timeRemaining", {})`. -/
def emptyTimeRemaining : TimeRemaining := ⟨none, none, none, none⟩

/-- A parsed license-status / heartbeat response body. -/
structure HeartbeatData where
  valid : Option Bool
  message : Option String
  plan : Option String
  timeRemaining : Option TimeRemaining
deriving DecidableEq

/-- Outcome of one HTTP request as `requests.post` surfaces it to the caller:
either a status code with a parsed body, or a raised
`requests.exceptions.RequestException` carrying its own string form. -/
inductive RequestOutcome (β : Type) where
  | success (status : Nat) (body : β)
  | requestException (err : String)
deriving DecidableEq

/-- The failure dictionaries built by `check_license_status`/`send_heartbeat`:
`{"valid": False, "message": m}`. -/
def failureData (m : String) : HeartbeatData := ⟨some false, some m, none, none⟩

/-- `FovDarkLicenseChecker.check_license_status` (lines 28–44): returns the parsed
body on HTTP 200, `{"valid": False, "message": "Erro HTTP <code>"}` on other
statuses, and `{"valid": False, "message": "Erro de conexão: <e>"}` when the
request raises. -/
def check_license_status (resp : RequestOutcome HeartbeatData) : HeartbeatData :=
  match resp with
  | .success code body =>
      if code = 200 then body else failureData ("Erro HTTP " ++ toString code)
  | .requestException e => failureData ("Erro de conexão: " ++ e)

/-- `FovDarkLicenseChecker.send_heartbeat` (lines 46–62): same shape as
`check_license_status`, against the heartbeat endpoint. -/
def send_heartbeat (resp : RequestOutcome HeartbeatData) : HeartbeatData :=
  match resp with
  | .success code body =>
      if code = 200 then body else failureData ("Erro HTTP " ++ toString code)
  | .requestException e => failureData ("Erro de conexão: " ++ e)

/-- Result of one iteration of the `while True` heartbeat loop: either the loop
returns `False` (license expired/invalid, with the message it would print), or it
loops again carrying the displayed remaining time. -/
inductive MonitorStep where
  | expired (msg : Option String)
  | continueMonitoring (remaining : TimeRemaining)
deriving DecidableEq

/-- The `totalMinutes` value the loop observes:
`heartbeat.get("timeRemaining", {}).get("totalMinutes", 0)`. -/
def observedTotalMinutes (hb : HeartbeatData) : Int :=
  ((hb.timeRemaining.getD emptyTimeRemaining).totalMinutes).getD 0

/-- The body of one iteration of `start_license_monitoring`'s loop
(lines 83–95): `if not heartbeat.get("valid"): return False`; then
`if remaining.get("totalMinutes", 0) <= 0: return False`; else continue. -/
def heartbeat_iteration (hb : HeartbeatData) : MonitorStep :=
  if hb.valid.getD false = false then .expired hb.message
  else
    let remaining := hb.timeRemaining.getD emptyTimeRemaining
    if observedTotalMinutes hb ≤ 0 then .expired (some "Licença expirada!")
    else .continueMonitoring remaining

/-- The heartbeat loop over a finite trace of already-processed heartbeat bodies
(each element is a `send_heartbeat` result): `some msg` when the loop returns
`False` at some iteration, `none` when the trace is exhausted with the monitor
still running. -/
def monitoring_loop : List HeartbeatData → Option (Option String)
  | [] => none
  | hb :: rest =>
    match heartbeat_iteration hb with
    | .expired m => some m
    | .continueMonitoring _ => monitoring_loop rest

/-- `start_license_monitoring` (lines 64–95) over a finite trace of request
outcomes: the initial `check_license_status` gate, then the heartbeat loop.
`some false` means the function returned `False`; `none` means the trace ended
with monitoring still running. -/
def start_license_monitoring (initial : RequestOutcome HeartbeatData)
    (heartbeats : List (RequestOutcome HeartbeatData)) : Option Bool :=
  let status := check_license_status initial
  if status.valid.getD false = false then some false
  else match monitoring_loop (heartbeats.map send_heartbeat) with
    | some _ => some false
    | none => none

/-- A request outcome the source treats as a failure: a raised transport
exception, or a non-200 status. -/
def requestFailed (resp : RequestOutcome HeartbeatData) : Prop :=
  match resp with
  | .success code _ => code ≠ 200
  | .requestException _ => True

/-- The message `check_license_status`/`send_heartbeat` attach to a failed request. -/
def failureMessage (resp : RequestOutcome HeartbeatData) : String :=
  match resp with
  | .success code _ => "Erro HTTP " ++ toString code
  | .requestException e => "Erro de conexão: " ++ e

/-! ## LoginWorker.run (loader_fovdark_corrigido_pyqt6.py, lines 254–315)

The three HTTP calls of the authentication sequence become an environment of
three response oracles.  The `try` body is embedded as `LoginWorker_run_body`,
returning the trace of issued calls plus either the emitted
`finished(success, message)` pair or a raised exception; `LoginWorker_run`
applies the `except` clauses of lines 310–315. -/

/-- The four remote protocol operations. -/
inductive ApiCall where
  | authenticate
  | checkLicense
  | bindFingerprint
  | heartbeat
deriving DecidableEq

/-- Exceptions the `try` body can raise, as discriminated by the `except`
clauses: `requests.exceptions.Timeout`, `requests.exceptions.ConnectionError`,
or any other `Exception` (carrying its string form `str(e)`). -/
inductive PyError where
  | timeout
  | connectionError
  | otherError (msg : String)
deriving DecidableEq

/-- Parsed body of the login response; `token` may be absent (then
`r.json()["token"]` raises `KeyError`). -/
structure LoginBody where
  token : Option String
deriving DecidableEq

/-- Parsed body of the license-check response. -/
structure LicenseBody where
  valid : Option Bool
  days_remaining : Option Int
deriving DecidableEq

instance {ε α : Type} [DecidableEq ε] [DecidableEq α] : DecidableEq (Except ε α) :=
  fun a b =>
    match a, b with
    | .ok x, .ok y =>
        if h : x = y then isTrue (congrArg Except.ok h)
        else isFalse fun hc => h (Except.ok.inj hc)
    | .error x, .error y =>
        if h : x = y then isTrue (congrArg Except.error h)
        else isFalse fun hc => h (Except.error.inj hc)
    | .ok _, .error _ => isFalse fun hc => Except.noConfusion hc
    | .error _, .ok _ => isFalse fun hc => Except.noConfusion hc

/-- The response environment of one `LoginWorker.run` execution: the outcome of
each of the three requests, were it to be issued.  `Except.error` is a raised
transport-level exception. -/
structure LoginEnv where
  loginResp : Except PyError (Nat × LoginBody)
  checkResp : Except PyError (Nat × LicenseBody)
  bindResp : Except PyError Nat
deriving DecidableEq

/-- `f"Licença ativa! Dias restantes: {dias}"` where
`dias = dados_licenca.get("days_remaining", "??")`. -/
def diasDisplay (lic : LicenseBody) : String :=
  match lic.days_remaining with
  | some d => toString d
  | none => "??"

/-- The message emitted when `/api/hwid/save` answers non-200. -/
def unauthorizedMessage : String :=
  "🚨 Acesso Não Autorizado.\nDetectamos uma tentativa de uso com PC não autorizado.\n\nIsso pode indicar tentativa de compartilhamento de conta ou uso indevido.\nSeu acesso poderá ser bloqueado após múltiplas tentativas."

/-- The message emitted when the license check reports not valid. -/
def licenseExpiredMessage : String :=
  "LICENSE_EXPIRED:Licença expirada ou inválida.\nRenove para continuar."

/-- The `try` body of `LoginWorker.run` (lines 255–308): trace of issued calls,
and either the emitted `finished` pair or a raised exception. -/
def LoginWorker_run_body (env : LoginEnv) : List ApiCall × Except PyError (Bool × String) :=
  match env.loginResp with
  | .error e => ([.authenticate], .error e)
  | .ok (code, body) =>
    if code = 200 then
      match body.token with
      | none => ([.authenticate], .error (.otherError "'token'"))
      | some _tok =>
        match env.checkResp with
        | .error e => ([.authenticate, .checkLicense], .error e)
        | .ok (code2, lic) =>
          if code2 = 200 then
            if lic.valid.getD false = false then
              ([.authenticate, .checkLicense], .ok (false, licenseExpiredMessage))
            else
              match env.bindResp with
              | .error e => ([.authenticate, .checkLicense, .bindFingerprint], .error e)
              | .ok code3 =>
                if code3 = 200 then
                  ([.authenticate, .checkLicense, .bindFingerprint],
                    .ok (true, "Licença ativa! Dias restantes: " ++ diasDisplay lic))
                else
                  ([.authenticate, .checkLicense, .bindFingerprint],
                    .ok (false, unauthorizedMessage))
          else
            ([.authenticate, .checkLicense],
              .ok (false, "Erro ao checar licença.\nStatus: " ++ toString code2))
    else
      ([.authenticate], .ok (false, "Credenciais inválidas."))

/-- The messages produced by the `except` clauses (lines 310–315). -/
def excMessage : PyError → String
  | .timeout => "Tempo limite de conexão excedido."
  | .connectionError => "Erro de conexão com o servidor."
  | .otherError m => "Erro de conexão: " ++ m

/-- `LoginWorker.run`: the `try` body under its exception handlers.  Always
emits exactly one `finished(success, message)` pair. -/
def LoginWorker_run (env : LoginEnv) : List ApiCall × (Bool × String) :=
  match LoginWorker_run_body env with
  | (t, .ok out) => (t, out)
  | (t, .error e) => (t, (false, excMessage e))

/-- A failed `Authenticate` call: transport error, or non-200 status. -/
def authFailed (env : LoginEnv) : Prop :=
  match env.loginResp with
  | .error _ => True
  | .ok (code, _) => code ≠ 200

/-- Modelled on the spec's words: the `Monitoring` state of the Session State
Machine has no explicit representation in `LoginWorker.run`; the spec maps
reaching `Monitoring` to the worker finishing with `success = true` (upon which
the Presentation Shell unlocks the payload step). -/
def reachesMonitoring (result : List ApiCall × (Bool × String)) : Prop :=
  result.2.1 = true

/-- A lowercase hexadecimal digit (the alphabet of Python's `hexdigest()`). -/
def isLowerHexDigit (ch : Char) : Bool :=
  ch.isDigit || (decide ('a' ≤ ch) && decide (ch ≤ 'f'))

/-- An uppercase hexadecimal digit (the alphabet the spec requires of the
fingerprint). -/
def isUpperHexDigit (ch : Char) : Bool :=
  ch.isDigit || (decide ('A' ≤ ch) && decide (ch ≤ 'F'))

/-- Python's `needle in message` test, as `FovDarkLoader.login_finished` uses to
classify a license-expired outcome (line 718). -/
def messageContains (needle message : String) : Prop :=
  ∃ pre post, message = pre ++ needle ++ post

/-! ## Helper lemmas -/

theorem string_mk_length (l : List Char) : (String.mk l).length = l.length := rfl

theorem string_mk_data (l : List Char) : (String.mk l).data = l := rfl

theorem natToHex64_length (D : Nat) : (natToHex64 D).length = 64 := by
  simp [natToHex64]

theorem natToHex64_mem_ex {D : Nat} {ch : Char} (h : ch ∈ natToHex64 D) :
    ∃ k, k < 16 ∧ ch = hexCharLower k := by
  simp only [natToHex64, List.mem_map, List.mem_range] at h
  obtain ⟨i, _, rfl⟩ := h
  exact ⟨D / 16 ^ (63 - i) % 16, Nat.mod_lt _ (by norm_num), rfl⟩

theorem isLowerHex_hexCharLower {k : Nat} (h : k < 16) :
    isLowerHexDigit (hexCharLower k) = true := by
  interval_cases k <;> decide

theorem isUpperHex_toUpper_hexCharLower {k : Nat} (h : k < 16) :
    isUpperHexDigit (hexCharLower k).toUpper = true := by
  interval_cases k <;> decide

/-! ## Claim theorems -/

/-- C4 (counterexample): as stated, the claim is false: `gerar_hwid` returns the
full `hexdigest()` without `.upper()`, so on a host with `uuid.getnode() = 0`
and empty `COMPUTERNAME`/`USERNAME` the fingerprint is a lowercase hex string,
not an uppercase one. -/
theorem gerar_hwid_not_uppercase :
    gerar_hwid 0 "" "" = "5feceb66ffc86f38d952786c6d696c79c2dbc239dd4e91b46729d73a27fb57e9"
    ∧ ¬ (∀ ch ∈ (gerar_hwid 0 "" "").data, isUpperHexDigit ch = true) := by
  constructor
  · decide
  · decide

/-- C4 (amended): both fingerprint generators hash a concatenation of at least
two independent machine signals with SHA-256 and return a fixed-length
hexadecimal string; `generate_hwid` (loader-example.py) returns the first 16
digits uppercased, while `gerar_hwid` (PyQt6 loader) returns the full
64-character lowercase digest. -/
theorem hwid_digest_shape (node : Nat) (cn un pn proc sys : String) :
    gerar_hwid node cn un =
        String.mk (sha256hex (strBytes (toString node ++ cn ++ un)))
    ∧ (gerar_hwid node cn un).length = 64
    ∧ (∀ ch ∈ (gerar_hwid node cn un).data, isLowerHexDigit ch = true)
    ∧ generate_hwid pn proc sys node =
        String.mk (((sha256hex (strBytes (combinedOf pn proc sys node))).take 16).map
          Char.toUpper)
    ∧ (generate_hwid pn proc sys node).length = 16
    ∧ (∀ ch ∈ (generate_hwid pn proc sys node).data, isUpperHexDigit ch = true) := by
  refine ⟨rfl, ?_, ?_, rfl, ?_, ?_⟩
  · rw [gerar_hwid, string_mk_length, sha256hex, natToHex64_length]
  · intro ch hch
    rw [gerar_hwid, string_mk_data, sha256hex] at hch
    obtain ⟨k, hk, rfl⟩ := natToHex64_mem_ex hch
    exact isLowerHex_hexCharLower hk
  · rw [generate_hwid, string_mk_length, List.length_map, List.length_take, sha256hex,
      natToHex64_length]
    decide
  · intro ch hch
    rw [generate_hwid, string_mk_data, sha256hex] at hch
    obtain ⟨ch0, hch0, rfl⟩ := List.mem_map.mp hch
    obtain ⟨k, hk, rfl⟩ := natToHex64_mem_ex (List.mem_of_mem_take hch0)
    exact isUpperHex_toUpper_hexCharLower hk

/-- C4 (witness for the amended theorem): on the host with `uuid.getnode() = 0`
and empty name attributes, the PyQt6 fingerprint has 64 characters, all
lowercase hex, and the loader-example fingerprint has 16 characters. -/
theorem hwid_digest_shape_witness :
    (gerar_hwid 0 "" "").length = 64
    ∧ isLowerHexDigit ((gerar_hwid 0 "" "").data.getD 0 ' ') = true
    ∧ (generate_hwid "n" "p" "s" 0).length = 16 :=
  ⟨(hwid_digest_shape 0 "" "" "n" "p" "s").2.1,
   (hwid_digest_shape 0 "" "" "n" "p" "s").2.2.1 _ (by decide),
   (hwid_digest_shape 0 "" "" "n" "p" "s").2.2.2.2.1⟩

/-- C5: both fingerprint generators are deterministic functions of the machine
attributes alone — two invocations on identical attribute inputs return
byte-identical strings; the embedding exhibits no other input (randomness,
time, process state). -/
theorem hwid_deterministic (n1 n2 : Nat) (c1 c2 u1 u2 pn1 pn2 pr1 pr2 s1 s2 : String)
    (hn : n1 = n2) (hc : c1 = c2) (hu : u1 = u2)
    (hpn : pn1 = pn2) (hpr : pr1 = pr2) (hs : s1 = s2) :
    gerar_hwid n1 c1 u1 = gerar_hwid n2 c2 u2
    ∧ generate_hwid pn1 pr1 s1 n1 = generate_hwid pn2 pr2 s2 n2 := by
  subst hn hc hu hpn hpr hs
  exact ⟨rfl, rfl⟩

/-- C5 (witness): two invocations on the same concrete machine attributes agree. -/
theorem hwid_deterministic_witness :
    gerar_hwid 7 "PC" "user" = gerar_hwid 7 "PC" "user"
    ∧ generate_hwid "n" "p" "s" 7 = generate_hwid "n" "p" "s" 7 :=
  hwid_deterministic 7 7 "PC" "PC" "user" "user" "n" "n" "p" "p" "s" "s"
    rfl rfl rfl rfl rfl rfl

/-- C1: one iteration of the heartbeat loop ends the monitor with an
expired/invalid outcome exactly when the response has `valid = false` or an
observed `totalMinutes ≤ 0`; on `valid = true` with positive `totalMinutes` the
loop continues monitoring unchanged. -/
theorem monitor_expiry_iff (hb : HeartbeatData) (v : Bool) (t : Int)
    (hv : hb.valid = some v) (ht : observedTotalMinutes hb = t) :
    ((∃ m, heartbeat_iteration hb = MonitorStep.expired m) ↔ (v = false ∨ t ≤ 0))
    ∧ (v = true → 0 < t → ∀ rest, monitoring_loop (hb :: rest) = monitoring_loop rest) := by
  subst ht
  cases v with
  | false =>
    refine ⟨⟨fun _ => Or.inl rfl, fun _ => ⟨hb.message, by simp [heartbeat_iteration, hv]⟩⟩, ?_⟩
    intro h
    simp at h
  | true =>
    constructor
    · by_cases hle : observedTotalMinutes hb ≤ 0
      · exact ⟨fun _ => Or.inr hle,
          fun _ => ⟨some "Licença expirada!", by simp [heartbeat_iteration, hv, hle]⟩⟩
      · constructor
        · rintro ⟨m, hm⟩
          simp [heartbeat_iteration, hv, hle] at hm
        · rintro (h | h)
          · simp at h
          · exact absurd h hle
    · intro _ hpos rest
      have hle : ¬ observedTotalMinutes hb ≤ 0 := by omega
      simp [monitoring_loop, heartbeat_iteration, hv, hle]

/-- C1 (witness): a `valid = true`, `totalMinutes = 5` response never yields the
expired outcome, and the loop continues past it. -/
theorem monitor_expiry_iff_witness :
    ((∃ m, heartbeat_iteration ⟨some true, none, none, some ⟨none, none, none, some 5⟩⟩
        = MonitorStep.expired m)
      ↔ (true = false ∨ (5 : Int) ≤ 0))
    ∧ (true = true → 0 < (5 : Int) → ∀ rest,
        monitoring_loop (⟨some true, none, none, some ⟨none, none, none, some 5⟩⟩ :: rest)
          = monitoring_loop rest) :=
  monitor_expiry_iff ⟨some true, none, none, some ⟨none, none, none, some 5⟩⟩ true 5 rfl rfl

/-- C3: a heartbeat request that raises a transport exception or answers non-200
is turned into a `valid = false` body whose message describes the failure, and
the very next loop iteration stops monitoring — it never continues past such a
failure. -/
theorem heartbeat_failure_fail_closed (resp : RequestOutcome HeartbeatData)
    (h : requestFailed resp) :
    (send_heartbeat resp).valid = some false
    ∧ (send_heartbeat resp).message = some (failureMessage resp)
    ∧ heartbeat_iteration (send_heartbeat resp)
        = MonitorStep.expired (some (failureMessage resp))
    ∧ ∀ rest, monitoring_loop (send_heartbeat resp :: rest)
        = some (some (failureMessage resp)) := by
  cases resp with
  | success code body =>
    have hc : code ≠ 200 := h
    refine ⟨?_, ?_, ?_, fun rest => ?_⟩ <;>
      simp [send_heartbeat, failureData, failureMessage, heartbeat_iteration,
        monitoring_loop, hc]
  | requestException e =>
    refine ⟨?_, ?_, ?_, fun rest => ?_⟩ <;>
      simp [send_heartbeat, failureData, failureMessage, heartbeat_iteration,
        monitoring_loop]

/-- C3 (witness): a concrete raised `requests` exception stops the monitor with
the transport-failure message. -/
theorem heartbeat_failure_fail_closed_witness :
    (send_heartbeat (RequestOutcome.requestException "timed out")).valid = some false
    ∧ heartbeat_iteration (send_heartbeat (RequestOutcome.requestException "timed out"))
        = MonitorStep.expired
            (some (failureMessage (RequestOutcome.requestException "timed out")))
    ∧ monitoring_loop [send_heartbeat (RequestOutcome.requestException "timed out")]
        = some (some (failureMessage (RequestOutcome.requestException "timed out"))) :=
  have H := heartbeat_failure_fail_closed (RequestOutcome.requestException "timed out") trivial
  ⟨H.1, H.2.2.1, H.2.2.2 []⟩

/-- C10: a 200 heartbeat body is passed through unparsed-field defaults: a
missing `valid` key is treated as invalid, and a missing `timeRemaining`
object or `totalMinutes` key is observed as `0`, so every such malformed body
stops the monitor as expired rather than being treated as a valid license. -/
theorem malformed_heartbeat_fail_closed (body : HeartbeatData) :
    send_heartbeat (RequestOutcome.success 200 body) = body
    ∧ (body.valid = none → heartbeat_iteration body = MonitorStep.expired body.message)
    ∧ (body.timeRemaining = none →
        observedTotalMinutes body = 0
        ∧ ∃ m, heartbeat_iteration body = MonitorStep.expired m)
    ∧ (∀ tr, body.timeRemaining = some tr → tr.totalMinutes = none →
        observedTotalMinutes body = 0
        ∧ ∃ m, heartbeat_iteration body = MonitorStep.expired m) := by
  refine ⟨by simp [send_heartbeat], fun hv => by simp [heartbeat_iteration, hv], ?_, ?_⟩
  · intro htr
    have h0 : observedTotalMinutes body = 0 := by
      simp [observedTotalMinutes, htr, emptyTimeRemaining]
    refine ⟨h0, ?_⟩
    by_cases hv : body.valid.getD false = false
    · exact ⟨body.message, by simp [heartbeat_iteration, hv]⟩
    · exact ⟨some "Licença expirada!", by simp [heartbeat_iteration, hv, h0]⟩
  · intro tr htr htm
    have h0 : observedTotalMinutes body = 0 := by
      simp [observedTotalMinutes, htr, htm]
    refine ⟨h0, ?_⟩
    by_cases hv : body.valid.getD false = false
    · exact ⟨body.message, by simp [heartbeat_iteration, hv]⟩
    · exact ⟨some "Licença expirada!", by simp [heartbeat_iteration, hv, h0]⟩

/-- C10 (witness): a 200 body with no `valid` key stops the monitor, and a 200
body with `valid = true` but an empty `timeRemaining` object is observed as
zero minutes and stops the monitor. -/
theorem malformed_heartbeat_fail_closed_witness :
    heartbeat_iteration ⟨none, some "m", none, none⟩
        = MonitorStep.expired (some "m")
    ∧ observedTotalMinutes ⟨some true, none, none, some ⟨none, none, none, none⟩⟩ = 0
    ∧ (∃ m, heartbeat_iteration ⟨some true, none, none, some ⟨none, none, none, none⟩⟩
        = MonitorStep.expired m) :=
  have H1 := (malformed_heartbeat_fail_closed ⟨none, some "m", none, none⟩).2.1 rfl
  have H2 := (malformed_heartbeat_fail_closed
    ⟨some true, none, none, some ⟨none, none, none, none⟩⟩).2.2.2
    ⟨none, none, none, none⟩ rfl rfl
  ⟨H1, H2.1, H2.2⟩

/-- C2: when the `Authenticate` call fails — transport error or non-200 — the
session issues no further protocol call: the trace is exactly
`[authenticate]`, the outcome is a failure, and neither `CheckLicense`,
`BindFingerprint` nor `Heartbeat` appears in the trace. -/
theorem auth_failure_no_further_calls (env : LoginEnv) (h : authFailed env) :
    (LoginWorker_run env).1 = [ApiCall.authenticate]
    ∧ (LoginWorker_run env).2.1 = false
    ∧ ApiCall.checkLicense ∉ (LoginWorker_run env).1
    ∧ ApiCall.bindFingerprint ∉ (LoginWorker_run env).1
    ∧ ApiCall.heartbeat ∉ (LoginWorker_run env).1 := by
  cases henv : env.loginResp with
  | error e =>
    refine ⟨?_, ?_, ?_, ?_, ?_⟩ <;> simp [LoginWorker_run, LoginWorker_run_body, henv]
  | ok cb =>
    obtain ⟨code, body⟩ := cb
    have hc : code ≠ 200 := by
      unfold authFailed at h
      rw [henv] at h
      exact h
    refine ⟨?_, ?_, ?_, ?_, ?_⟩ <;> simp [LoginWorker_run, LoginWorker_run_body, henv, hc]

/-- C2 (witness): a 401 on login yields a failed outcome with a
single-element trace. -/
theorem auth_failure_no_further_calls_witness :
    (LoginWorker_run ⟨.ok (401, ⟨none⟩), .ok (200, ⟨none, none⟩), .ok 200⟩).1
        = [ApiCall.authenticate]
    ∧ (LoginWorker_run ⟨.ok (401, ⟨none⟩), .ok (200, ⟨none, none⟩), .ok 200⟩).2.1 = false
    ∧ ApiCall.checkLicense
        ∉ (LoginWorker_run ⟨.ok (401, ⟨none⟩), .ok (200, ⟨none, none⟩), .ok 200⟩).1
    ∧ ApiCall.bindFingerprint
        ∉ (LoginWorker_run ⟨.ok (401, ⟨none⟩), .ok (200, ⟨none, none⟩), .ok 200⟩).1
    ∧ ApiCall.heartbeat
        ∉ (LoginWorker_run ⟨.ok (401, ⟨none⟩), .ok (200, ⟨none, none⟩), .ok 200⟩).1 :=
  auth_failure_no_further_calls ⟨.ok (401, ⟨none⟩), .ok (200, ⟨none, none⟩), .ok 200⟩
    (show (401 : Nat) ≠ 200 by decide)

/-- C6: a 200 license check reporting `valid = false` ends the session with the
`LICENSE_EXPIRED:`-tagged failure message — the classification
`login_finished` renders as the license-expired kind — and the bind call is
never issued. -/
theorem check_invalid_halts_session (env : LoginEnv) (tok : String) (lic : LicenseBody)
    (h1 : env.loginResp = .ok (200, ⟨some tok⟩))
    (h2 : env.checkResp = .ok (200, lic))
    (h3 : lic.valid = some false) :
    LoginWorker_run env
      = ([ApiCall.authenticate, ApiCall.checkLicense], (false, licenseExpiredMessage))
    ∧ ApiCall.bindFingerprint ∉ (LoginWorker_run env).1
    ∧ messageContains "LICENSE_EXPIRED:" (LoginWorker_run env).2.2 := by
  have hrun : LoginWorker_run env
      = ([ApiCall.authenticate, ApiCall.checkLicense], (false, licenseExpiredMessage)) := by
    simp [LoginWorker_run, LoginWorker_run_body, h1, h2, h3]
  refine ⟨hrun, ?_, ?_⟩
  · rw [hrun]
    simp
  · rw [hrun]
    exact ⟨"", "Licença expirada ou inválida.\nRenove para continuar.", by decide⟩

/-- C6 (witness): a concrete `{valid: false}` check response halts the session
with the license-expired outcome without binding. -/
theorem check_invalid_halts_session_witness :
    LoginWorker_run ⟨.ok (200, ⟨some "T1"⟩), .ok (200, ⟨some false, none⟩), .ok 200⟩
      = ([ApiCall.authenticate, ApiCall.checkLicense], (false, licenseExpiredMessage))
    ∧ ApiCall.bindFingerprint
        ∉ (LoginWorker_run ⟨.ok (200, ⟨some "T1"⟩), .ok (200, ⟨some false, none⟩), .ok 200⟩).1
    ∧ messageContains "LICENSE_EXPIRED:"
        (LoginWorker_run
          ⟨.ok (200, ⟨some "T1"⟩), .ok (200, ⟨some false, none⟩), .ok 200⟩).2.2 :=
  check_invalid_halts_session
    ⟨.ok (200, ⟨some "T1"⟩), .ok (200, ⟨some false, none⟩), .ok 200⟩
    "T1" ⟨some false, none⟩ rfl rfl rfl

/-- C7: a non-200 answer to the fingerprint bind halts the session with the
unauthorized-device failure message, and the session never reaches the
`Monitoring`-equivalent success outcome. -/
theorem bind_failure_halts_session (env : LoginEnv) (tok : String) (lic : LicenseBody)
    (c3 : Nat)
    (h1 : env.loginResp = .ok (200, ⟨some tok⟩))
    (h2 : env.checkResp = .ok (200, lic))
    (h3 : lic.valid = some true)
    (h4 : env.bindResp = .ok c3)
    (h5 : c3 ≠ 200) :
    LoginWorker_run env
      = ([ApiCall.authenticate, ApiCall.checkLicense, ApiCall.bindFingerprint],
          (false, unauthorizedMessage))
    ∧ ¬ reachesMonitoring (LoginWorker_run env) := by
  have hrun : LoginWorker_run env
      = ([ApiCall.authenticate, ApiCall.checkLicense, ApiCall.bindFingerprint],
          (false, unauthorizedMessage)) := by
    simp [LoginWorker_run, LoginWorker_run_body, h1, h2, h3, h4, h5]
  refine ⟨hrun, ?_⟩
  rw [reachesMonitoring, hrun]
  simp

/-- C7 (witness): a concrete 403 on the bind call yields the
unauthorized-device failure without reaching the success outcome. -/
theorem bind_failure_halts_session_witness :
    LoginWorker_run ⟨.ok (200, ⟨some "T1"⟩), .ok (200, ⟨some true, some 5⟩), .ok 403⟩
      = ([ApiCall.authenticate, ApiCall.checkLicense, ApiCall.bindFingerprint],
          (false, unauthorizedMessage))
    ∧ ¬ reachesMonitoring
        (LoginWorker_run
          ⟨.ok (200, ⟨some "T1"⟩), .ok (200, ⟨some true, some 5⟩), .ok 403⟩) :=
  bind_failure_halts_session
    ⟨.ok (200, ⟨some "T1"⟩), .ok (200, ⟨some true, some 5⟩), .ok 403⟩
    "T1" ⟨some true, some 5⟩ 403 rfl rfl rfl rfl (show (403 : Nat) ≠ 200 by decide)

/-- C8: every outcome of `LoginWorker.run` is a single `(success, message)`
pair — every exception raised in the `try` body is classified by the `except`
clauses into a `(false, message)` pair — and the two loader-example protocol
wrappers turn every failed request into a `{valid: false, message: ...}`
body; no raw transport exception crosses either component boundary. -/
theorem uniform_outcome_shape (env : LoginEnv) (t : List ApiCall) (e : PyError)
    (resp : RequestOutcome HeartbeatData) :
    (LoginWorker_run_body env = (t, Except.error e) →
        LoginWorker_run env = (t, (false, excMessage e)))
    ∧ (requestFailed resp →
        (check_license_status resp).valid = some false
        ∧ (check_license_status resp).message = some (failureMessage resp))
    ∧ (requestFailed resp →
        (send_heartbeat resp).valid = some false
        ∧ (send_heartbeat resp).message = some (failureMessage resp)) := by
  refine ⟨fun h => by simp [LoginWorker_run, h], fun h => ?_, fun h => ?_⟩
  · cases resp with
    | success code body =>
      have hc : code ≠ 200 := h
      simp [check_license_status, failureData, failureMessage, hc]
    | requestException e2 =>
      simp [check_license_status, failureData, failureMessage]
  · cases resp with
    | success code body =>
      have hc : code ≠ 200 := h
      simp [send_heartbeat, failureData, failureMessage, hc]
    | requestException e2 =>
      simp [send_heartbeat, failureData, failureMessage]

/-- C8 (witness): a concrete raised timeout surfaces as
`(False, "Tempo limite de conexão excedido.")`, and a concrete 500 answer is
classified into a `{valid: false, message: "Erro HTTP 500"}` body. -/
theorem uniform_outcome_shape_witness :
    LoginWorker_run ⟨.error .timeout, .ok (200, ⟨none, none⟩), .ok 200⟩
      = ([ApiCall.authenticate], (false, excMessage PyError.timeout))
    ∧ (check_license_status (.success 500 ⟨none, none, none, none⟩)).valid = some false
    ∧ (send_heartbeat (.success 500 ⟨none, none, none, none⟩)).message
        = some (failureMessage (.success 500 ⟨none, none, none, none⟩)) :=
  have H := uniform_outcome_shape ⟨.error .timeout, .ok (200, ⟨none, none⟩), .ok 200⟩
    [ApiCall.authenticate] .timeout (.success 500 ⟨none, none, none, none⟩)
  ⟨H.1 rfl, (H.2.1 (show (500 : Nat) ≠ 200 by decide)).1,
    (H.2.2 (show (500 : Nat) ≠ 200 by decide)).2⟩

/-- C9: with a 200 login answer carrying a token, a 200 check answering
`{valid: true, days_remaining: 5}` and a 200 bind acknowledgement, the session
issues all three calls in order and finishes with
`(True, "Licença ativa! Dias restantes: 5")`, the `Monitoring`-equivalent
outcome. -/
theorem happy_path_reaches_monitoring (env : LoginEnv) (tok : String)
    (h1 : env.loginResp = .ok (200, ⟨some tok⟩))
    (h2 : env.checkResp = .ok (200, ⟨some true, some 5⟩))
    (h3 : env.bindResp = .ok 200) :
    LoginWorker_run env
      = ([ApiCall.authenticate, ApiCall.checkLicense, ApiCall.bindFingerprint],
          (true, "Licença ativa! Dias restantes: 5"))
    ∧ reachesMonitoring (LoginWorker_run env) := by
  have hrun : LoginWorker_run env
      = ([ApiCall.authenticate, ApiCall.checkLicense, ApiCall.bindFingerprint],
          (true, "Licença ativa! Dias restantes: 5")) := by
    simp [LoginWorker_run, LoginWorker_run_body, h1, h2, h3, diasDisplay]
    decide
  refine ⟨hrun, ?_⟩
  rw [reachesMonitoring, hrun]

/-- C9 (witness): the happy path at concrete responses with token `"T1"`. -/
theorem happy_path_reaches_monitoring_witness :
    LoginWorker_run ⟨.ok (200, ⟨some "T1"⟩), .ok (200, ⟨some true, some 5⟩), .ok 200⟩
      = ([ApiCall.authenticate, ApiCall.checkLicense, ApiCall.bindFingerprint],
          (true, "Licença ativa! Dias restantes: 5"))
    ∧ reachesMonitoring
        (LoginWorker_run
          ⟨.ok (200, ⟨some "T1"⟩), .ok (200, ⟨some true, some 5⟩), .ok 200⟩) :=
  happy_path_reaches_monitoring
    ⟨.ok (200, ⟨some "T1"⟩), .ok (200, ⟨some true, some 5⟩), .ok 200⟩
    "T1" rfl rfl rfl

end FovDark
